import Mathlib

/-!
# Verification of the Knight Bot status plugin (`src/plugins/status.rs`)

Shallow embedding of the telemetry core: the filesystem of virtual sysfs
nodes is a map from path strings to optional contents plus a directory
listing map; the sysinfo handle (`System`) carries the memory counters,
the kernel version, and a refreshable CPU-utilization source (the spec's
"stubbed refreshable source": each `refresh_cpu` pops the next fixed
utilization value).  `f32`/`f64` readings and arithmetic from the source
are embedded as exact rationals; the source's float operations on the
values that occur here (sum of five percentages, division by constants
up to 10^6 on sysfs integers) are exact or correctly rounded, which the
rational model reproduces.
-/

namespace KnightBot

/-- A read-only snapshot of the virtual filesystem the probes touch.
`files p` models `std::fs::read_to_string(p)` (`none` = missing,
unreadable or any other `Err`); `dirs p` models `std::fs::read_dir(p)`
after `.flatten()`, as the list of entry paths in enumeration order. -/
structure FS where
  files : String → Option String
  dirs : String → Option (List String)

/-- The refreshable global-CPU-utilization source inside the sysinfo
handle.  `current` is what `global_cpu_info().cpu_usage()` returns now;
`pending` are the values successive `refresh_cpu` calls will expose. -/
structure CpuStub where
  current : ℚ
  pending : List ℚ

/-- One `refresh_cpu`: expose the next pending utilization value. -/
def CpuStub.refresh (s : CpuStub) : CpuStub :=
  match s.pending with
  | [] => s
  | v :: rest => { current := v, pending := rest }

/-- The sysinfo `System` handle as obtained from `System::new_all()`:
memory counters in bytes (`u64`), the kernel version
(`System::kernel_version()`), and the CPU source. -/
structure System where
  total_memory : ℕ
  used_memory : ℕ
  kernel_version : Option String
  cpu : CpuStub

/-- `sys.refresh_cpu()`: refreshes only the CPU counters; the memory
fields and kernel version are untouched. -/
def refresh_cpu (sys : System) : System :=
  { sys with cpu := sys.cpu.refresh }

/-- `sys.global_cpu_info().cpu_usage()`. -/
def global_cpu_usage (sys : System) : ℚ :=
  sys.cpu.current

/-- Rust's `char::is_whitespace`: the Unicode `White_Space` set. -/
def rustIsWhitespace (c : Char) : Bool :=
  let n := c.toNat
  (9 ≤ n && n ≤ 13) || n == 32 || n == 133 || n == 160 || n == 5760 ||
  (8192 ≤ n && n ≤ 8202) || n == 8232 || n == 8233 || n == 8239 ||
  n == 8287 || n == 12288

/-- Rust's `str::trim`: strip leading and trailing whitespace. -/
def rustTrim (s : String) : String :=
  String.mk
    (((s.data.dropWhile rustIsWhitespace).reverse.dropWhile
      rustIsWhitespace).reverse)

/-- Numeric value of a list of ASCII digit characters. -/
def digitsVal (l : List Char) : ℕ :=
  l.foldl (fun a c => a * 10 + (c.toNat - 48)) 0

/-- The `str::parse::<u64>` grammar: an optional leading `+`, then one
or more ASCII digits, and the value must fit in 64 bits; anything else
(empty, sign only, other characters, overflow) is `Err`. -/
def parseRustU64 (s : String) : Option ℕ :=
  let digits := if s.data.head? = some '+' then s.data.tail else s.data
  if !digits.isEmpty && digits.all Char.isDigit then
    if digitsVal digits < 18446744073709551616 then
      some (digitsVal digits)
    else none
  else none

/-- `read_u64` from the source: `std::fs::read_to_string(path).ok()
.and_then(|v| v.trim().parse::<u64>().ok())`. -/
def read_u64 (fs : FS) (path : String) : Option ℕ :=
  (fs.files path).bind (fun v => parseRustU64 (rustTrim v))

/-- The fixed devfreq base path `base` in `read_freedreno_gpu`. -/
def gpu_base : String := "/sys/class/devfreq/2c00000.gpu"

/-- The GPU load: `read_u64(base/device/gpu_busy).or_else(||
read_u64(base/device/load)).unwrap_or(0)`. -/
def gpu_load (fs : FS) : ℕ :=
  ((read_u64 fs (gpu_base ++ "/device/gpu_busy")).orElse
    (fun _ => read_u64 fs (gpu_base ++ "/device/load"))).getD 0

/-- `read_u64(base/cur_freq).unwrap_or(0)`. -/
def gpu_freq (fs : FS) : ℕ :=
  (read_u64 fs (gpu_base ++ "/cur_freq")).getD 0

/-- `read_u64(base/max_freq).unwrap_or(0)`. -/
def gpu_max_freq (fs : FS) : ℕ :=
  (read_u64 fs (gpu_base ++ "/max_freq")).getD 0

/-- Round `n / d` to the nearest integer, ties to even: the value the
source's `\x7b:.0\x7d` float formatting prints for the exact quotient. -/
def natRoundDiv (n d : ℕ) : ℕ :=
  let q := n / d
  let r := n % d
  if 2 * r < d then q
  else if d < 2 * r then q + 1
  else if q % 2 = 0 then q else q + 1

/-- Render a frequency in Hz as whole MHz: `\x7b:.0\x7d` applied to
`hz as f64 / 1_000_000.0`. -/
def fmtMHz (hz : ℕ) : String :=
  toString (natRoundDiv hz 1000000)

/-- `read_freedreno_gpu`: always `Some` of the composite
`"load% | cur/max MHz"` summary; every sub-field defaults to 0. -/
def read_freedreno_gpu (fs : FS) : Option String :=
  some (toString (gpu_load fs) ++ "% | " ++ fmtMHz (gpu_freq fs) ++ "/"
    ++ fmtMHz (gpu_max_freq fs) ++ " MHz")

/-- The fixed power-supply base path in `read_battery_percentage`. -/
def power_supply_base : String := "/sys/class/power_supply"

/-- The `for entry in entries.flatten()` loop body of
`read_battery_percentage`: return on the first entry whose
`capacity` node reads, else fall through to `"N/A"`. -/
def battery_scan (fs : FS) : List String → String
  | [] => "N/A"
  | e :: rest =>
    match fs.files (e ++ "/capacity") with
    | some v => rustTrim v ++ "%"
    | none => battery_scan fs rest

/-- `read_battery_percentage`: list the power-supply directory; first
entry with a readable `capacity` wins, trimmed and suffixed `%`;
`"N/A"` when the listing fails or no entry has one. -/
def read_battery_percentage (fs : FS) : String :=
  match fs.dirs power_supply_base with
  | some entries => battery_scan fs entries
  | none => "N/A"

/-- Round `q` to the nearest integer, ties to even. -/
def ratRound (q : ℚ) : ℤ :=
  let f := Int.floor q
  if q - f < 1/2 then f
  else if (1:ℚ)/2 < q - f then f + 1
  else if f % 2 = 0 then f else f + 1

/-- Render a rational with one decimal place, the `\x7b:.1\x7d`
formatting used for the CPU percentage. -/
def fmtCpu (q : ℚ) : String :=
  let t := ratRound (q * 10)
  if t < 0 then "-" ++ toString ((-t) / 10) ++ "." ++ toString ((-t) % 10)
  else toString (t / 10) ++ "." ++ toString (t % 10)

/-- The sampling `for _ in 0..samples` loop of `read_cpu_avg`:
each iteration refreshes the CPU counters, (sleeps,) and accumulates
the instantaneous global utilization. -/
def cpu_sample_loop : ℕ → System → ℚ → ℚ × System
  | 0, sys, total => (total, sys)
  | n + 1, sys, total =>
    let sys := refresh_cpu sys
    cpu_sample_loop n sys (total + global_cpu_usage sys)

/-- `read_cpu_avg`: one warm-up refresh whose reading is discarded,
then `samples = 5` accumulating refreshes, returning the mean.  The
threaded `System` models the `&mut System` argument. -/
def read_cpu_avg (sys : System) : ℚ × System :=
  let samples : ℕ := 5
  let sys := refresh_cpu sys
  let p := cpu_sample_loop samples sys 0
  (p.1 / (samples : ℚ), p.2)

/-- The `format!` template of `knightcmd_status`, split at the
concatenation points the claims talk about. -/
def status_text (cpu : ℚ) (used total : ℕ)
    (gpu battery kernel : String) : String :=
  "🖥 <b>System Status</b>\n─────────────────\n" ++
  ("<b>CPU:</b> " ++ fmtCpu cpu ++ "%\n") ++
  ("<b>Memory:</b> " ++ toString used ++ " / " ++ toString total
    ++ " MiB") ++
  ("\n<b>GPU (Adreno 640):</b> " ++ gpu) ++
  ("\n<b>Battery:</b> " ++ battery) ++
  ("\n<b>Kernel:</b> " ++ kernel)

/-- The pure body of `knightcmd_status` up to the reply: sample the
CPU, convert memory bytes to MiB, run the two probes with their
defaults, and render the report text. -/
def knightcmd_status_text (sys0 : System) (fs : FS) : String :=
  let p := read_cpu_avg sys0
  let cpu_usage := p.1
  let sys := p.2
  let total_mem := sys.total_memory / 1048576
  let used_mem := sys.used_memory / 1048576
  let gpu := (read_freedreno_gpu fs).getD "N/A"
  let battery := read_battery_percentage fs
  let kernel := sys.kernel_version.getD "unknown"
  status_text cpu_usage used_mem total_mem gpu battery kernel

/-- `knightcmd_status` with the transport collaborator made explicit:
`deliver` is `message.reply(...)`; its error is the only one the
function can propagate (`?` on the reply, then `Ok(())`). -/
def knightcmd_status (sys0 : System) (fs : FS)
    (deliver : String → Except String Unit) : Except String Unit :=
  deliver (knightcmd_status_text sys0 fs)

/-! ## Concrete test fixtures -/

/-- A filesystem with no readable nodes and no listable directories. -/
def fsEmpty : FS := ⟨fun _ => none, fun _ => none⟩

/-- A filesystem with a single node containing `"  42\n"`. -/
def fs42 : FS :=
  ⟨fun p => if p = "/sys/node" then some "  42\n" else none,
   fun _ => none⟩

/-- GPU fixture: `gpu_busy` absent, `load` reads `"37"`, `cur_freq`
reads `"800000000"`, `max_freq` absent. -/
def fsGpu : FS :=
  ⟨fun p =>
    if p = "/sys/class/devfreq/2c00000.gpu/device/load" then some "37"
    else if p = "/sys/class/devfreq/2c00000.gpu/cur_freq" then
      some "800000000"
    else none,
   fun _ => none⟩

/-- Battery fixture: two power-supply entries, the first without a
`capacity` node, the second with `"85\n"`. -/
def fsBat : FS :=
  ⟨fun p =>
    if p = "/sys/class/power_supply/bat1/capacity" then some "85\n"
    else none,
   fun p =>
    if p = "/sys/class/power_supply" then
      some ["/sys/class/power_supply/usb",
            "/sys/class/power_supply/bat1"]
    else none⟩

/-- A sysinfo handle: 8 GiB total, 4 GiB used, and a CPU stub. -/
def sysDemo : System :=
  ⟨8589934592, 4294967296, some "6.6.0-knight", ⟨0, [3, 10, 20, 30, 40, 50]⟩⟩

/-- Same memory and kernel state as `sysDemo`, different CPU source. -/
def sysDemo2 : System :=
  ⟨8589934592, 4294967296, some "6.6.0-knight", ⟨7, [9, 9, 9, 9, 9, 9]⟩⟩

/-! ## Helper lemmas -/

/-- The sampling loop only touches the CPU source: memory counters and
kernel version ride through unchanged. -/
lemma cpu_sample_loop_mem (n : ℕ) (sys : System) (t : ℚ) :
    (cpu_sample_loop n sys t).2.total_memory = sys.total_memory ∧
    (cpu_sample_loop n sys t).2.used_memory = sys.used_memory ∧
    (cpu_sample_loop n sys t).2.kernel_version = sys.kernel_version := by
  induction n generalizing sys t with
  | zero => exact ⟨rfl, rfl, rfl⟩
  | succ n ih =>
    simp only [cpu_sample_loop]
    exact ih _ _

/-- `read_cpu_avg` only touches the CPU source. -/
lemma read_cpu_avg_mem (sys : System) :
    (read_cpu_avg sys).2.total_memory = sys.total_memory ∧
    (read_cpu_avg sys).2.used_memory = sys.used_memory ∧
    (read_cpu_avg sys).2.kernel_version = sys.kernel_version := by
  simpa only [read_cpu_avg] using cpu_sample_loop_mem 5 (refresh_cpu sys) 0

/-- If no entry has a readable capacity node the scan falls through. -/
lemma battery_scan_all_none (fs : FS) : ∀ l : List String,
    (∀ e ∈ l, fs.files (e ++ "/capacity") = none) →
    battery_scan fs l = "N/A"
  | [], _ => rfl
  | e :: rest, h => by
    have he := h e (List.mem_cons_self e rest)
    simp only [battery_scan, he]
    exact battery_scan_all_none fs rest
      (fun p hp => h p (List.mem_cons_of_mem e hp))

/-- The first entry with a readable capacity node wins the scan. -/
lemma battery_scan_hit (fs : FS) (v : String) :
    ∀ (pre : List String) (e : String) (suf : List String),
    (∀ p ∈ pre, fs.files (p ++ "/capacity") = none) →
    fs.files (e ++ "/capacity") = some v →
    battery_scan fs (pre ++ e :: suf) = rustTrim v ++ "%"
  | [], e, suf, _, he => by
    simp only [List.nil_append, battery_scan, he]
  | p :: pre, e, suf, hpre, he => by
    have hp := hpre p (List.mem_cons_self p pre)
    simp only [List.cons_append, battery_scan, hp]
    exact battery_scan_hit fs v pre e suf
      (fun q hq => hpre q (List.mem_cons_of_mem p hq)) he

/-! ## Claim theorems -/

/-- C1: telemetry collection is total.  For every sysinfo state,
filesystem state and transport, the rendered report exists and is a
full five-field `status_text`; the invocation's result is exactly the
transport's verdict on that string, so only delivery can fail. -/
theorem telemetry_total (sys : System) (fs : FS)
    (deliver : String → Except String Unit) :
    knightcmd_status sys fs deliver
      = deliver (knightcmd_status_text sys fs) ∧
    ∃ cpu used total gpu battery kernel,
      knightcmd_status_text sys fs
        = status_text cpu used total gpu battery kernel :=
  ⟨rfl, _, _, _, _, _, _, rfl⟩

/-- C2: the CPU sampler returns the arithmetic mean of the five
post-warm-up readings `(a+b+c+d+e)/5`, independent of the warm-up
reading `w` (and of the pre-existing counter value `cur`). -/
theorem read_cpu_avg_mean (w a b c d e cur : ℚ) (tm um : ℕ)
    (kv : Option String) :
    (read_cpu_avg ⟨tm, um, kv, ⟨cur, [w, a, b, c, d, e]⟩⟩).1
      = (a + b + c + d + e) / 5 := by
  simp only [read_cpu_avg, cpu_sample_loop, refresh_cpu,
    global_cpu_usage, CpuStub.refresh]
  ring_nf

/-- C3: `read_u64` returns `some n` exactly when the node is readable
and its trimmed content parses as an unsigned 64-bit integer `n`, and
`none` whenever the node is missing or its content does not parse; a
node containing `"  42\n"` yields `some 42`. -/
theorem read_u64_characterization :
    (∀ (fs : FS) (path : String) (n : ℕ),
      read_u64 fs path = some n ↔
        ∃ c, fs.files path = some c ∧
          parseRustU64 (rustTrim c) = some n) ∧
    (∀ (fs : FS) (path : String),
      (∀ c, fs.files path = some c →
        parseRustU64 (rustTrim c) = none) →
      read_u64 fs path = none) ∧
    read_u64 fs42 "/sys/node" = some 42 := by
  refine ⟨?_, ?_, rfl⟩
  · intro fs path n
    cases h : fs.files path with
    | none => simp [read_u64, h]
    | some c => simp [read_u64, h]
  · intro fs path h
    cases hc : fs.files path with
    | none => simp [read_u64, hc]
    | some c => simp [read_u64, hc, h c hc]

/-- Witness for C3 at a concrete unreadable path. -/
theorem read_u64_characterization_witness :
    read_u64 fsEmpty "/sys/missing" = none :=
  read_u64_characterization.2.1 fsEmpty "/sys/missing"
    (fun _ hc => Option.noConfusion hc)

/-- C4: the GPU primary load is `gpu_busy` when that parses, else
`load` when that parses, else `0`; concretely, `load = "37"` with
`gpu_busy` absent yields `37`, and both absent yields `0`. -/
theorem gpu_load_fallback :
    (∀ (fs : FS) (n : ℕ),
      read_u64 fs (gpu_base ++ "/device/gpu_busy") = some n →
      gpu_load fs = n) ∧
    (∀ (fs : FS) (n : ℕ),
      read_u64 fs (gpu_base ++ "/device/gpu_busy") = none →
      read_u64 fs (gpu_base ++ "/device/load") = some n →
      gpu_load fs = n) ∧
    (∀ fs : FS,
      read_u64 fs (gpu_base ++ "/device/gpu_busy") = none →
      read_u64 fs (gpu_base ++ "/device/load") = none →
      gpu_load fs = 0) ∧
    gpu_load fsGpu = 37 ∧
    gpu_load fsEmpty = 0 := by
  refine ⟨?_, ?_, ?_, rfl, rfl⟩
  · intro fs n h
    simp [gpu_load, h, Option.orElse]
  · intro fs n h1 h2
    simp [gpu_load, h1, h2, Option.orElse]
  · intro fs h1 h2
    simp [gpu_load, h1, h2, Option.orElse]

/-- Witness for C4: the fallback branch taken on the GPU fixture. -/
theorem gpu_load_fallback_witness : gpu_load fsGpu = 37 :=
  gpu_load_fallback.2.1 fsGpu 37 rfl rfl

/-- C5: the battery probe returns the first enumerated entry whose
`capacity` node reads, trimmed with `%` appended, and `"N/A"` exactly
when the directory cannot be listed or no entry's capacity reads. -/
theorem battery_first_readable :
    (∀ fs : FS, fs.dirs power_supply_base = none →
      read_battery_percentage fs = "N/A") ∧
    (∀ (fs : FS) (entries : List String),
      fs.dirs power_supply_base = some entries →
      (∀ e ∈ entries, fs.files (e ++ "/capacity") = none) →
      read_battery_percentage fs = "N/A") ∧
    (∀ (fs : FS) (pre : List String) (e : String) (suf : List String)
        (v : String),
      fs.dirs power_supply_base = some (pre ++ e :: suf) →
      (∀ p ∈ pre, fs.files (p ++ "/capacity") = none) →
      fs.files (e ++ "/capacity") = some v →
      read_battery_percentage fs = rustTrim v ++ "%") := by
  refine ⟨?_, ?_, ?_⟩
  · intro fs h
    simp [read_battery_percentage, h]
  · intro fs entries h hall
    simp only [read_battery_percentage, h]
    exact battery_scan_all_none fs entries hall
  · intro fs pre e suf v h hpre he
    simp only [read_battery_percentage, h]
    exact battery_scan_hit fs v pre e suf hpre he

/-- Witness for C5 on the two-entry battery fixture: the first entry
lacks `capacity`, the second reads `"85\n"`, the result is `"85%"`. -/
theorem battery_first_readable_witness :
    read_battery_percentage fsBat = "85%" := by
  have h := battery_first_readable.2.2 fsBat
      ["/sys/class/power_supply/usb"] "/sys/class/power_supply/bat1"
      [] "85\n" rfl
      (by
        intro p hp
        have hp2 : p = "/sys/class/power_supply/usb" :=
          List.mem_singleton.mp hp
        subst hp2
        rfl)
      rfl
  exact h.trans rfl

/-- C6: the GPU probe always yields a populated composite summary,
never the unavailable marker: the result is always `some`, and the
`"N/A"` substitution at the call site is never taken. -/
theorem gpu_always_renders (fs : FS) :
    (read_freedreno_gpu fs).isSome = true ∧
    (read_freedreno_gpu fs).getD "N/A" ≠ "N/A" := by
  refine ⟨rfl, ?_⟩
  intro h
  have hlen := congrArg String.length h
  simp only [read_freedreno_gpu, Option.getD_some,
    String.length_append] at hlen
  have e1 : ("% | " : String).length = 4 := rfl
  have e2 : ("/" : String).length = 1 := rfl
  have e3 : (" MHz" : String).length = 4 := rfl
  have e4 : ("N/A" : String).length = 3 := rfl
  omega

/-- Witness for C6 on the empty filesystem. -/
theorem gpu_always_renders_witness :
    (read_freedreno_gpu fsEmpty).isSome = true :=
  (gpu_always_renders fsEmpty).1

/-- C7: GPU frequencies are rendered by dividing the raw Hz value by
1,000,000 with zero decimal places; a `cur_freq` of `"800000000"`
renders as `"800"` in the composite summary. -/
theorem gpu_freq_conversion :
    (∀ n : ℕ, n % 1000000 = 0 → fmtMHz n = toString (n / 1000000)) ∧
    (∀ (fs : FS) (n : ℕ),
      read_u64 fs (gpu_base ++ "/cur_freq") = some n →
      read_freedreno_gpu fs = some (toString (gpu_load fs) ++ "% | "
        ++ fmtMHz n ++ "/" ++ fmtMHz (gpu_max_freq fs) ++ " MHz")) ∧
    fmtMHz 800000000 = "800" := by
  refine ⟨?_, ?_, rfl⟩
  · intro n h
    simp [fmtMHz, natRoundDiv, h]
  · intro fs n h
    simp [read_freedreno_gpu, gpu_freq, h]

/-- Witness for C7 on the GPU fixture with `cur_freq = "800000000"`. -/
theorem gpu_freq_conversion_witness :
    read_freedreno_gpu fsGpu = some "37% | 800/0 MHz" :=
  (gpu_freq_conversion.2.1 fsGpu 800000000 rfl).trans rfl

/-- C8: memory is converted from bytes to MiB by truncating division
by 1,048,576 and rendered used-before-total; 4 GiB used of 8 GiB total
renders as `"4096 / 8192 MiB"`. -/
theorem memory_mib_rendering :
    (∀ (sys : System) (fs : FS), ∃ pre post,
      knightcmd_status_text sys fs =
        pre ++ ("<b>Memory:</b> "
          ++ toString (sys.used_memory / 1048576) ++ " / "
          ++ toString (sys.total_memory / 1048576) ++ " MiB")
          ++ post) ∧
    (∃ pre post,
      knightcmd_status_text sysDemo fsEmpty =
        pre ++ "<b>Memory:</b> 4096 / 8192 MiB" ++ post) := by
  have main : ∀ (sys : System) (fs : FS), ∃ pre post,
      knightcmd_status_text sys fs =
        pre ++ ("<b>Memory:</b> "
          ++ toString (sys.used_memory / 1048576) ++ " / "
          ++ toString (sys.total_memory / 1048576) ++ " MiB")
          ++ post := by
    intro sys fs
    obtain ⟨ht, hu, hk⟩ := read_cpu_avg_mem sys
    refine ⟨"🖥 <b>System Status</b>\n─────────────────\n" ++
        ("<b>CPU:</b> " ++ fmtCpu (read_cpu_avg sys).1 ++ "%\n"),
      ("\n<b>GPU (Adreno 640):</b> "
          ++ (read_freedreno_gpu fs).getD "N/A")
        ++ (("\n<b>Battery:</b> " ++ read_battery_percentage fs)
        ++ ("\n<b>Kernel:</b> "
          ++ ((read_cpu_avg sys).2.kernel_version.getD "unknown"))),
      ?_⟩
    simp only [knightcmd_status_text, status_text, ht, hu]
    simp only [String.append_assoc]
  refine ⟨main, ?_⟩
  obtain ⟨pre, post, hp⟩ := main sysDemo fsEmpty
  have hAB : ("<b>Memory:</b> "
      ++ toString (sysDemo.used_memory / 1048576) ++ " / "
      ++ toString (sysDemo.total_memory / 1048576) ++ " MiB")
      = "<b>Memory:</b> 4096 / 8192 MiB" := rfl
  exact ⟨pre, post, by rw [hp, hAB]⟩

/-- C9: the GPU and battery probes are deterministic functions of the
filesystem state: two invocations over the same filesystem, from any
two sysinfo states agreeing on memory and kernel version, render
reports that are identical outside the CPU field. -/
theorem probes_deterministic (sys1 sys2 : System) (fs : FS)
    (ht : sys1.total_memory = sys2.total_memory)
    (hu : sys1.used_memory = sys2.used_memory)
    (hk : sys1.kernel_version = sys2.kernel_version) :
    ∃ c1 c2 rest,
      knightcmd_status_text sys1 fs =
        "🖥 <b>System Status</b>\n─────────────────\n"
          ++ ("<b>CPU:</b> " ++ fmtCpu c1 ++ "%\n") ++ rest ∧
      knightcmd_status_text sys2 fs =
        "🖥 <b>System Status</b>\n─────────────────\n"
          ++ ("<b>CPU:</b> " ++ fmtCpu c2 ++ "%\n") ++ rest := by
  obtain ⟨h1t, h1u, h1k⟩ := read_cpu_avg_mem sys1
  obtain ⟨h2t, h2u, h2k⟩ := read_cpu_avg_mem sys2
  refine ⟨(read_cpu_avg sys1).1, (read_cpu_avg sys2).1,
    ("<b>Memory:</b> " ++ toString (sys1.used_memory / 1048576)
        ++ " / " ++ toString (sys1.total_memory / 1048576) ++ " MiB")
      ++ (("\n<b>GPU (Adreno 640):</b> "
          ++ (read_freedreno_gpu fs).getD "N/A")
      ++ (("\n<b>Battery:</b> " ++ read_battery_percentage fs)
      ++ ("\n<b>Kernel:</b> "
        ++ (sys1.kernel_version.getD "unknown")))), ?_, ?_⟩
  · simp only [knightcmd_status_text, status_text, h1t, h1u, h1k]
    simp only [String.append_assoc]
  · simp only [knightcmd_status_text, status_text, h2t, h2u, h2k]
    rw [← ht, ← hu, ← hk]
    simp only [String.append_assoc]

/-- Witness for C9: same filesystem, two sysinfo states differing only
in the CPU source. -/
theorem probes_deterministic_witness :
    ∃ c1 c2 rest,
      knightcmd_status_text sysDemo fsBat =
        "🖥 <b>System Status</b>\n─────────────────\n"
          ++ ("<b>CPU:</b> " ++ fmtCpu c1 ++ "%\n") ++ rest ∧
      knightcmd_status_text sysDemo2 fsBat =
        "🖥 <b>System Status</b>\n─────────────────\n"
          ++ ("<b>CPU:</b> " ++ fmtCpu c2 ++ "%\n") ++ rest :=
  probes_deterministic sysDemo sysDemo2 fsBat rfl rfl rfl

/-- C10: the CPU sampling loop refreshes only the CPU counters: one
`refresh_cpu` and the whole sampler leave the memory counters exactly
as in the entry snapshot, and the rendered memory line shows the entry
snapshot's values. -/
theorem cpu_refresh_frame (sys : System) (fs : FS) :
    ((refresh_cpu sys).total_memory = sys.total_memory ∧
     (refresh_cpu sys).used_memory = sys.used_memory) ∧
    ((read_cpu_avg sys).2.total_memory = sys.total_memory ∧
     (read_cpu_avg sys).2.used_memory = sys.used_memory) ∧
    ∃ pre post,
      knightcmd_status_text sys fs =
        pre ++ (toString (sys.used_memory / 1048576) ++ " / "
          ++ toString (sys.total_memory / 1048576)) ++ post := by
  obtain ⟨ht, hu, hk⟩ := read_cpu_avg_mem sys
  refine ⟨⟨rfl, rfl⟩, ⟨ht, hu⟩,
    "🖥 <b>System Status</b>\n─────────────────\n" ++
      ("<b>CPU:</b> " ++ fmtCpu (read_cpu_avg sys).1 ++ "%\n")
      ++ "<b>Memory:</b> ",
    " MiB" ++ (("\n<b>GPU (Adreno 640):</b> "
        ++ (read_freedreno_gpu fs).getD "N/A")
      ++ (("\n<b>Battery:</b> " ++ read_battery_percentage fs)
      ++ ("\n<b>Kernel:</b> "
        ++ ((read_cpu_avg sys).2.kernel_version.getD "unknown")))),
    ?_⟩
  simp only [knightcmd_status_text, status_text, ht, hu]
  simp only [String.append_assoc]

end KnightBot
